import Mathlib

/-!
Shallow embedding of the Vikasit Jharkhand civic-issue reporting client
(SIH_LogicLoop). Pure application logic is translated into Lean
definitions; browser/backend effects (Firestore, auth, localStorage,
geolocation, the confirm dialog) are modelled by explicit outcome
parameters and state records. JavaScript numbers are modelled by `ℚ`,
absent optional string fields by `Option String`, and JS string
falsiness (`!s` true for `undefined` and `""`) is modelled explicitly
where the source relies on it.
-/

namespace VikasitJharkhand

/-- Issue status, from `StatusBadge.tsx`:
`type IssueStatus = 'reported' | 'acknowledged' | 'in-progress' | 'resolved'`. -/
inductive IssueStatus
  | reported
  | acknowledged
  | inProgress
  | resolved
deriving DecidableEq, Repr

/-- The string each `IssueStatus` value is written as in the source
(select option values, filter comparisons). -/
def statusStr : IssueStatus → String
  | .reported => "reported"
  | .acknowledged => "acknowledged"
  | .inProgress => "in-progress"
  | .resolved => "resolved"

/-- User role, from `auth.ts` `UserProfile.role : 'citizen' | 'admin'`. -/
inductive Role
  | citizen
  | admin
deriving DecidableEq, Repr

/-- Timestamp values stored in `createdAt` / `updatedAt` fields (`any` in the
source): either the Firestore `serverTimestamp()` sentinel or a client-side
`new Date()`, whose epoch milliseconds we carry as a `Nat`. -/
inductive TsValue
  | serverStamp
  | clientDate (millis : Nat)
deriving DecidableEq, Repr

/-- `IssueCard.tsx` `Issue.location : { address, lat, lng }`. -/
structure IssueLocation where
  address : String
  lat : ℚ
  lng : ℚ
deriving DecidableEq, Repr

/-- `IssueCard.tsx` `export interface Issue`. `reportedAt : Date` is carried
as epoch milliseconds; `imageUrl?` and `assignedTo?` are optional strings. -/
structure Issue where
  id : String
  title : String
  description : String
  category : String
  status : IssueStatus
  location : IssueLocation
  imageUrl : Option String
  reportedBy : String
  reportedAt : Nat
  assignedTo : Option String
deriving DecidableEq, Repr

/-- `vendors.ts` `export interface Vendor` (timestamps as epoch millis). -/
structure Vendor where
  id : String
  name : String
  email : String
  phone : String
  specialities : List String
  location : String
  rating : ℚ
  totalJobs : ℚ
  baseQuote : ℚ
  description : String
  verified : Bool
  createdAt : Nat
  updatedAt : Nat
deriving DecidableEq, Repr

/-- `auth.ts` `export interface UserProfile`. -/
structure UserProfile where
  uid : String
  name : String
  email : String
  phone : String
  role : Role
  profileImageUrl : Option String
  createdAt : TsValue
  updatedAt : TsValue
deriving DecidableEq, Repr

/-- A Firebase SDK error value, as consumed by `handleFirebaseError`:
only its `code` and `message` properties are read. An absent property is
modelled by the empty string, which the source treats the same way
(`=== 'unavailable'` fails and `error.message ||` falls through). -/
structure FirebaseErrorV where
  code : String
  message : String
deriving DecidableEq, Repr

/-- `firebase.ts` `handleFirebaseError`: map `unavailable` /
`deadline-exceeded` codes to the offline-mode message, otherwise return
`error.message || 'An error occurred. Please try again.'`. -/
def handleFirebaseError (error : FirebaseErrorV) : String :=
  if error.code == "unavailable" || error.code == "deadline-exceeded" then
    "Service temporarily unavailable. Operating in offline mode."
  else if error.message == "" then
    "An error occurred. Please try again."
  else
    error.message

/-! ## Vendor matching (`VendorManagement.tsx`) -/

/-- The predicate of `VendorManagement.tsx` `relevantVendors`:
`!issue || vendor.specialities.length === 0 || vendor.specialities.includes(issue.category)`.
The modal receives `issue : Issue | null | undefined`, modelled as `Option Issue`. -/
def vendorMatches (issue : Option Issue) (vendor : Vendor) : Bool :=
  match issue with
  | none => true
  | some i => vendor.specialities.length == 0 || vendor.specialities.contains i.category

/-- `VendorManagement.tsx` `relevantVendors = vendors.filter(...)`. -/
def relevantVendors (issue : Option Issue) (vendors : List Vendor) : List Vendor :=
  vendors.filter (vendorMatches issue)

/-- `VendorManagement.tsx`
`displayVendors = relevantVendors.length > 0 ? relevantVendors : vendors`:
the list actually offered in the assignment modal. -/
def displayVendors (issue : Option Issue) (vendors : List Vendor) : List Vendor :=
  if (relevantVendors issue vendors).length > 0 then relevantVendors issue vendors
  else vendors

/-! ## Admin dashboard filtering (`AdminDashboard.tsx`) -/

/-- JavaScript `String.prototype.toLowerCase()`: lowercase the string
character by character. We keep the character list, which `jsIncludes`
consumes. -/
def jsToLower (s : String) : List Char :=
  s.toList.map Char.toLower

/-- JavaScript `String.prototype.includes` on lowered character lists:
substring containment, i.e. the pattern is an infix of the receiver. -/
def jsIncludes (s sub : List Char) : Bool :=
  decide (sub <:+: s)

/-- The filter controls of `AdminDashboard.tsx`: `searchQuery`, `filterStatus`,
`filterCategory`, `filterAssignee`, all plain strings (the latter three use
the sentinel `"all"`, and `filterAssignee` also `"unassigned"`). -/
structure FilterSettings where
  searchQuery : String
  filterStatus : String
  filterCategory : String
  filterAssignee : String
deriving DecidableEq, Repr

/-- `matchesSearch` of `AdminDashboard.tsx` `filteredIssues`: the query,
lowercased, occurs in the lowercased title, description or location address. -/
def matchesSearch (f : FilterSettings) (issue : Issue) : Bool :=
  jsIncludes (jsToLower issue.title) (jsToLower f.searchQuery) ||
  jsIncludes (jsToLower issue.description) (jsToLower f.searchQuery) ||
  jsIncludes (jsToLower issue.location.address) (jsToLower f.searchQuery)

/-- `matchesStatus`: `filterStatus === 'all' || issue.status === filterStatus`. -/
def matchesStatus (f : FilterSettings) (issue : Issue) : Bool :=
  f.filterStatus == "all" || statusStr issue.status == f.filterStatus

/-- `matchesCategory`: `filterCategory === 'all' || issue.category === filterCategory`. -/
def matchesCategory (f : FilterSettings) (issue : Issue) : Bool :=
  f.filterCategory == "all" || issue.category == f.filterCategory

/-- JS falsiness of the optional `assignedTo` string: `!issue.assignedTo` is
true when the field is absent or the empty string. -/
def isFalsyAssignee : Option String → Bool
  | none => true
  | some s => s == ""

/-- `matchesAssignee`: `filterAssignee === 'all' ||
(filterAssignee === 'unassigned' && !issue.assignedTo) ||
issue.assignedTo === filterAssignee`. -/
def matchesAssignee (f : FilterSettings) (issue : Issue) : Bool :=
  f.filterAssignee == "all" ||
  (f.filterAssignee == "unassigned" && isFalsyAssignee issue.assignedTo) ||
  issue.assignedTo == some f.filterAssignee

/-- `AdminDashboard.tsx` `filteredIssues`: conjunction of the four predicates. -/
def filteredIssues (f : FilterSettings) (issues : List Issue) : List Issue :=
  issues.filter fun issue =>
    matchesSearch f issue && matchesStatus f issue &&
    matchesCategory f issue && matchesAssignee f issue

/-- Case-insensitive containment, the reading of "contains the search query
case-insensitively" used by the source (lowercase both sides, substring). -/
def containsCI (s q : String) : Prop :=
  jsIncludes (jsToLower s) (jsToLower q) = true

/-- An issue "has no assignedTo" in the sense the dashboard uses throughout
(`!issue.assignedTo`): the optional field is absent or the empty string. -/
def hasNoAssignee (issue : Issue) : Prop :=
  issue.assignedTo = none ∨ issue.assignedTo = some ""

/-! ## Issue updates by the admin (`AdminDashboard.tsx`) -/

/-- A `Partial<Issue>` as passed to `updateIssue` by the admin dashboard
handlers: only the `status` and `assignedTo` fields are ever set there. -/
structure IssueUpdates where
  status : Option IssueStatus
  assignedTo : Option String
deriving DecidableEq, Repr

/-- Merging a partial update into an issue (the Firestore `updateDoc` /
`onUpdateIssue` spread `{ ...issue, ...updates }`). -/
def applyIssueUpdates (i : Issue) (u : IssueUpdates) : Issue :=
  { i with
    status := u.status.getD i.status
    assignedTo := match u.assignedTo with
      | some a => some a
      | none => i.assignedTo }

/-- `AdminDashboard.tsx` `handleAssignVendor`: resolve the vendor name
(falling back to `Vendor-<id>`) and update the issue with
`{ assignedTo: vendorName, status: 'in-progress' }`. -/
def assignVendorUpdates (vendors : List Vendor) (vendorId : String) : IssueUpdates :=
  let vendorName :=
    match vendors.find? (fun v => v.id == vendorId) with
    | some v => v.name
    | none => "Vendor-" ++ vendorId
  { status := some .inProgress, assignedTo := some vendorName }

/-! ## Issue submission (`IssueReportForm.tsx` `handleSubmit`) -/

/-- The selected image `File`: only its name and size are read by the form. -/
structure FileV where
  name : String
  size : Nat
deriving DecidableEq, Repr

/-- The single timeout raced against the image upload in
`IssueReportForm.tsx` `handleSubmit` (milliseconds). -/
def imageUploadTimeoutMs : Nat := 15000

/-- How the storage upload of the selected image behaves, were it allowed to
run to completion: it resolves with a download URL after some duration, or
rejects after some duration. -/
inductive UploadAttempt
  | completes (durationMs : Nat) (url : String)
  | fails (durationMs : Nat)
deriving DecidableEq, Repr

/-- `Promise.race([uploadImage(selectedImage), timeout])` from `handleSubmit`:
the first promise to settle wins; the timeout promise rejects with
`Error('Image upload timeout')` after `imageUploadTimeoutMs`. When the upload
itself settles first but rejects, the race rejects with the upload's own
error (its message is irrelevant downstream; the catch logs it only). -/
def raceUpload (a : UploadAttempt) : Except String String :=
  match a with
  | .completes d url =>
      if d < imageUploadTimeoutMs then .ok url else .error "Image upload timeout"
  | .fails d =>
      if d < imageUploadTimeoutMs then .error "Image upload failed"
      else .error "Image upload timeout"

/-- The form state read by `handleSubmit`: the four required text fields, the
geolocation fix, the object-URL preview (`imageUrl` state), the selected
image file and the voice-note text. -/
structure FormState where
  title : String
  description : String
  category : String
  location : String
  latLng : Option (ℚ × ℚ)
  imageUrl : String
  selectedImage : Option FileV
  audioDescription : String
deriving DecidableEq, Repr

/-- The environment a single `handleSubmit` run interacts with: Firebase
availability, the image upload's behaviour, the `confirm()` dialog's answer,
and `addIssue`'s outcome (document id, or the error it throws). -/
structure SubmitEnv where
  isFirebaseAvailable : Bool
  uploadAttempt : UploadAttempt
  userConfirms : Bool
  addIssueOutcome : Except FirebaseErrorV String
deriving Repr

/-- JS truthiness of `finalImageUrl : string | undefined`. -/
def truthyStr : Option String → Bool
  | none => false
  | some s => s != ""

/-- The `issueData` object built by `handleSubmit` and passed to `addIssue`
(flattened location; `reportedAt`/timestamps are attached by `addIssue`). -/
structure IssueData where
  title : String
  description : String
  category : String
  address : String
  lat : ℚ
  lng : ℚ
  reportedBy : String
  status : IssueStatus
  imageUrl : Option String
  imageUploadFailed : Bool
  audioDescription : Option String
deriving DecidableEq, Repr

/-- Building `issueData` in `handleSubmit`: location from the form state with
`latLng?.lat ?? 0` fallbacks, `status: 'reported'`, `imageUrl` only when
`finalImageUrl` is truthy, `imageUploadFailed: true` when an image was
selected but no URL was obtained, `audioDescription` only when non-empty. -/
def buildIssueData (currentUserEmail : String) (fs : FormState)
    (finalImageUrl : Option String) : IssueData :=
  { title := fs.title
    description := fs.description
    category := fs.category
    address := fs.location
    lat := (fs.latLng.map Prod.fst).getD 0
    lng := (fs.latLng.map Prod.snd).getD 0
    reportedBy := currentUserEmail
    status := .reported
    imageUrl := if truthyStr finalImageUrl then finalImageUrl else none
    imageUploadFailed := fs.selectedImage.isSome && !truthyStr finalImageUrl
    audioDescription := if fs.audioDescription == "" then none
      else some fs.audioDescription }

/-- What a `handleSubmit` run did: final `error` state text, final `loading`
state, whether `addIssue` was invoked (and with which `issueData`), and
whether the form was closed (`onCancel()` reached). -/
structure SubmitResult where
  errorMsg : String
  loading : Bool
  addIssueCalled : Bool
  submitted : Option IssueData
  closedForm : Bool
deriving DecidableEq, Repr

/-- `IssueReportForm.tsx` `handleSubmit`, step for step: required-field
validation; image upload raced against the 15 s timeout (only when an image
is selected and Firebase is available; offline it reuses the object URL);
on upload failure a warning is set and the `confirm()` dialog decides whether
to continue; then `issueData` is built and `addIssue` awaited, with
`err.message || 'Failed to submit issue. Please try again.'` on throw and
`onCancel()` on success. -/
def handleSubmit (env : SubmitEnv) (currentUserEmail : String)
    (fs : FormState) : SubmitResult :=
  if fs.title == "" || fs.description == "" || fs.category == "" ||
      fs.location == "" then
    { errorMsg := "Please fill in all required fields"
      loading := false
      addIssueCalled := false
      submitted := none
      closedForm := false }
  else
    let uploadPhase : Option String × Bool × String :=
      match fs.selectedImage with
      | none => (none, false, "")
      | some _ =>
        if env.isFirebaseAvailable then
          match raceUpload env.uploadAttempt with
          | .ok url => (some url, false, "")
          | .error _ =>
            (none, true,
             "⚠️ Image upload failed, but your report will be submitted without the image. You can edit the report later to add the image.")
        else
          (some fs.imageUrl, false, "")
    let finalImageUrl := uploadPhase.1
    let imageUploadFailed := uploadPhase.2.1
    let warnMsg := uploadPhase.2.2
    if imageUploadFailed && fs.selectedImage.isSome && !env.userConfirms then
      { errorMsg := "Submission cancelled. Please try uploading the image again or submit without image."
        loading := false
        addIssueCalled := false
        submitted := none
        closedForm := false }
    else
      let issueData := buildIssueData currentUserEmail fs finalImageUrl
      match env.addIssueOutcome with
      | .ok _ =>
        { errorMsg := warnMsg
          loading := false
          addIssueCalled := true
          submitted := some issueData
          closedForm := true }
      | .error e =>
        { errorMsg := if e.message == "" then
            "Failed to submit issue. Please try again."
          else e.message
          loading := false
          addIssueCalled := true
          submitted := some issueData
          closedForm := false }

/-! ## Auth service (`auth.ts`) -/

/-- Outcome of the backend `createUserWithEmailAndPassword` +
`updateProfile` calls in `registerUser`: a fresh uid, or a thrown error. -/
inductive AuthOutcome
  | ok (uid : String)
  | err (e : FirebaseErrorV)
deriving DecidableEq, Repr

/-- What a `registerUser` run produced: the returned profile, the profile
written to localStorage (offline path only) and the profile written to the
Firestore `users` document (online path only). -/
structure RegisterOutput where
  profile : UserProfile
  storedLocal : Option UserProfile
  firestoreWrite : Option UserProfile
deriving DecidableEq, Repr

/-- `auth.ts` `registerUser`. Offline (`!isFirebaseAvailable`) it builds a
mock profile with uid `offline_<Date.now()>` and saves it to localStorage;
online it creates the backend account and writes the profile to Firestore.
Both profiles carry `role: 'citizen'`. `now` is `Date.now()` in epoch ms. -/
def registerUser (isFirebaseAvailable : Bool) (now : Nat)
    (backend : AuthOutcome) (email _password name phone : String) :
    Except String RegisterOutput :=
  if !isFirebaseAvailable then
    let mockProfile : UserProfile :=
      { uid := "offline_" ++ toString now
        name := name
        email := email
        phone := phone
        role := .citizen
        profileImageUrl := none
        createdAt := .clientDate now
        updatedAt := .clientDate now }
    .ok { profile := mockProfile
          storedLocal := some mockProfile
          firestoreWrite := none }
  else
    match backend with
    | .err e => .error (handleFirebaseError e)
    | .ok uid =>
      let userProfile : UserProfile :=
        { uid := uid
          name := name
          email := email
          phone := phone
          role := .citizen
          profileImageUrl := none
          createdAt := .serverStamp
          updatedAt := .serverStamp }
      .ok { profile := userProfile
            storedLocal := none
            firestoreWrite := some userProfile }

/-- The hard-coded administrator profile built by `signInUser` (and
`getUserProfile`) for the `admin`/`admin` credentials; `now` is the
`new Date()` instant. -/
def adminProfile (now : Nat) : UserProfile :=
  { uid := "admin"
    name := "Administrator"
    email := "admin@vikasitjharkhand.gov.in"
    phone := "+91-9999999999"
    role := .admin
    profileImageUrl := none
    createdAt := .clientDate now
    updatedAt := .clientDate now }

/-- The single entry of the hard-coded `demoUsers` list in `signInUser`'s
offline branch. -/
def demoProfile (now : Nat) : UserProfile :=
  { uid := "demo_user"
    name := "Demo Citizen"
    email := "demo@vikasitjharkhand.gov.in"
    phone := "+91-9876543210"
    role := .citizen
    profileImageUrl := none
    createdAt := .clientDate now
    updatedAt := .clientDate now }

/-- Outcome of the backend `signInWithEmailAndPassword` + profile fetch in
`signInUser`'s online branch: auth threw, the `users` document was missing,
or the stored profile was found. -/
inductive SignInBackend
  | authError (e : FirebaseErrorV)
  | profileMissing
  | found (profile : UserProfile)
deriving DecidableEq, Repr

/-- What a successful `signInUser` run produced: the returned profile, the
profile stored in localStorage, and whether the backend was consulted. -/
structure SignInResult where
  profile : UserProfile
  storedLocal : Option UserProfile
  backendCalled : Bool
deriving DecidableEq, Repr

/-- `auth.ts` `signInUser`: the hard-coded `admin`/`admin` check comes first
and touches no backend; otherwise offline mode consults the `demoUsers`
list; otherwise the backend signs in and the Firestore profile is loaded
(a missing profile throws `Error('User profile not found')`, which the catch
maps through `handleFirebaseError`, yielding its message). -/
def signInUser (isFirebaseAvailable : Bool) (now : Nat)
    (backend : SignInBackend) (email password : String) :
    Except String SignInResult :=
  if email == "admin" && password == "admin" then
    .ok { profile := adminProfile now
          storedLocal := some (adminProfile now)
          backendCalled := false }
  else if !isFirebaseAvailable then
    if email == "demo@vikasitjharkhand.gov.in" && password == "demo123" then
      .ok { profile := demoProfile now
            storedLocal := some (demoProfile now)
            backendCalled := false }
    else
      .error "Invalid credentials. Try demo@vikasitjharkhand.gov.in / demo123 or register a new account."
  else
    match backend with
    | .authError e => .error (handleFirebaseError e)
    | .profileMissing =>
        .error (handleFirebaseError { code := "", message := "User profile not found" })
    | .found profile =>
        .ok { profile := profile
              storedLocal := some profile
              backendCalled := true }

/-- A `Partial<UserProfile>` as accepted by `updateUserProfile`: each field
optionally overridden. -/
structure ProfileUpdates where
  name : Option String
  email : Option String
  phone : Option String
  role : Option Role
  profileImageUrl : Option String
deriving DecidableEq, Repr

/-- The JS spread `{ ...profile, ...updates, updatedAt: ts }`. -/
def mergeProfile (p : UserProfile) (u : ProfileUpdates) (ts : TsValue) :
    UserProfile :=
  { p with
    name := u.name.getD p.name
    email := u.email.getD p.email
    phone := u.phone.getD p.phone
    role := u.role.getD p.role
    profileImageUrl := match u.profileImageUrl with
      | some v => some v
      | none => p.profileImageUrl
    updatedAt := ts }

/-- The persistent state the auth service touches: the
`vikasit_jharkhand_user` localStorage entry and the Firestore `users`
collection (uid-keyed). -/
structure Store where
  localUser : Option UserProfile
  firestoreUsers : List (String × UserProfile)
deriving DecidableEq, Repr

/-- What a service call did: the thrown error message if any, the state
afterwards, and whether any backend call was made. -/
structure OpResult where
  thrown : Option String
  store : Store
  backendCalled : Bool
deriving DecidableEq, Repr

/-- Apply `updateDoc(users/<uid>, { ...updates, updatedAt: serverTimestamp() })`
to the modelled `users` collection. -/
def updateFirestoreUser (users : List (String × UserProfile)) (uid : String)
    (updates : ProfileUpdates) : List (String × UserProfile) :=
  users.map fun kv =>
    if kv.1 == uid then (kv.1, mergeProfile kv.2 updates .serverStamp) else kv

/-- `auth.ts` `updateUserProfile`: the `uid === 'admin'` guard throws first;
offline it merges into the localStorage profile (when present); online it
updates the Firestore document, then mirrors the merge into localStorage.
`backendErr` is the error `updateDoc` throws, if any. -/
def updateUserProfile (isFirebaseAvailable : Bool) (now : Nat)
    (backendErr : Option FirebaseErrorV) (st : Store) (uid : String)
    (updates : ProfileUpdates) : OpResult :=
  if uid == "admin" then
    { thrown := some "Cannot update admin profile"
      store := st
      backendCalled := false }
  else if !isFirebaseAvailable then
    match st.localUser with
    | some p =>
      { thrown := none
        store := { st with localUser := some (mergeProfile p updates (.clientDate now)) }
        backendCalled := false }
    | none =>
      { thrown := none, store := st, backendCalled := false }
  else
    match backendErr with
    | some e =>
      { thrown := some (handleFirebaseError e)
        store := st
        backendCalled := true }
    | none =>
      let st1 : Store :=
        { st with firestoreUsers := updateFirestoreUser st.firestoreUsers uid updates }
      let st2 : Store :=
        match st1.localUser with
        | some p =>
          { st1 with localUser := some (mergeProfile p updates (.clientDate now)) }
        | none => st1
      { thrown := none, store := st2, backendCalled := true }

/-- The firebase-auth `User` object as consumed by `deleteUserAccount`:
only its `uid` is read by the repository's own logic. -/
structure AuthUser where
  uid : String
deriving DecidableEq, Repr

/-- `auth.ts` `deleteUserAccount`: the `user.uid === 'admin'` guard throws
first; offline it only clears localStorage; online it deletes the Firestore
document and the auth account, then clears localStorage. `backendErr` is the
error thrown by the backend deletes, if any. -/
def deleteUserAccount (isFirebaseAvailable : Bool)
    (backendErr : Option FirebaseErrorV) (st : Store) (user : AuthUser) :
    OpResult :=
  if user.uid == "admin" then
    { thrown := some "Cannot delete admin account"
      store := st
      backendCalled := false }
  else if !isFirebaseAvailable then
    { thrown := none
      store := { st with localUser := none }
      backendCalled := false }
  else
    match backendErr with
    | some e =>
      { thrown := some (handleFirebaseError e)
        store := st
        backendCalled := true }
    | none =>
      { thrown := none
        store := { localUser := none
                   firestoreUsers := st.firestoreUsers.filter (fun kv => kv.1 != user.uid) }
        backendCalled := true }

/-! ## Location service (`location.ts`) -/

/-- The `LocationResult` interface of `location.ts`. -/
structure LocationResult where
  address : String
  lat : ℚ
  lng : ℚ
  error : Option String
deriving DecidableEq, Repr

/-- How the browser geolocation request turns out, covering every branch
`getUserLocation` distinguishes: geolocation unsupported, the three
`GeolocationPositionError` codes, an error with any other code (the
`switch` default keeps the initial message), or a successful position. -/
inductive GeoOutcome
  | unsupported
  | permissionDenied
  | positionUnavailable
  | timedOut
  | otherError
  | position (lat lng : ℚ)
deriving DecidableEq, Repr

/-- How a `Promise` executor settles: `resolve(value)` or `reject(reason)`. -/
inductive PromiseOutcome (α : Type)
  | resolved (value : α)
  | rejected (reason : String)
deriving DecidableEq, Repr

/-- One entry of the hard-coded Jharkhand city table in `getLocationName`. -/
structure CityV where
  name : String
  lat : ℚ
  lng : ℚ
  radius : ℚ
deriving DecidableEq, Repr

/-- The `cities` table of `location.ts` `getLocationName`. -/
def cities : List CityV :=
  [ { name := "Ranchi", lat := 23.3441, lng := 85.3096, radius := 0.5 }
  , { name := "Dhanbad", lat := 23.7957, lng := 86.4304, radius := 0.3 }
  , { name := "Jamshedpur", lat := 22.8046, lng := 86.2029, radius := 0.4 }
  , { name := "Bokaro", lat := 23.6693, lng := 85.9512, radius := 0.2 }
  , { name := "Deoghar", lat := 24.4823, lng := 86.7042, radius := 0.2 } ]

/-- JS `Number.prototype.toFixed(6)` on the rational coordinate model:
render with exactly six decimal places, rounding half away from zero. -/
def toFixed6 (q : ℚ) : String :=
  let sign := if q < 0 then "-" else ""
  let n : Nat := (|q| * 1000000 + 1/2).floor.toNat
  let ip := n / 1000000
  let fp := n % 1000000
  let fpStr := toString fp
  let pad := String.mk (List.replicate (6 - fpStr.length) '0')
  sign ++ toString ip ++ "." ++ pad ++ fpStr

/-- `location.ts` `getLocationName` (mock reverse geocoding): the first city
whose Euclidean distance to the point is at most its radius names the
address; otherwise the coordinates themselves are rendered. The source
compares `Math.sqrt(d2) <= radius`; over the rational model this is the
equivalent `d2 <= radius^2`. -/
def getLocationName (lat lng : ℚ) : String :=
  match cities.find?
      (fun c => (lat - c.lat) ^ 2 + (lng - c.lng) ^ 2 ≤ c.radius ^ 2 : CityV → Bool) with
  | some city => "Near " ++ city.name ++ ", Jharkhand"
  | none => toFixed6 lat ++ ", " ++ toFixed6 lng ++ " (Jharkhand)"

/-- `location.ts` `getUserLocation`: the promise executor, branch for
branch. Every branch calls `resolve`; the error branches resolve with
`lat = lng = 0`, a fallback address and an error message, and the success
branch resolves with the device coordinates and the derived address. -/
def getUserLocation (o : GeoOutcome) : PromiseOutcome LocationResult :=
  match o with
  | .unsupported =>
    .resolved { address := "Geolocation not supported"
                lat := 0
                lng := 0
                error := some "Geolocation is not supported by this browser" }
  | .permissionDenied =>
    .resolved { address := "Location permission denied"
                lat := 0
                lng := 0
                error := some "Location permission denied by user" }
  | .positionUnavailable =>
    .resolved { address := "Location unavailable"
                lat := 0
                lng := 0
                error := some "Location information is unavailable" }
  | .timedOut =>
    .resolved { address := "Location timeout"
                lat := 0
                lng := 0
                error := some "Location request timed out" }
  | .otherError =>
    .resolved { address := "Location unavailable"
                lat := 0
                lng := 0
                error := some "Unknown location error" }
  | .position lat lng =>
    .resolved { address := getLocationName lat lng
                lat := lat
                lng := lng
                error := none }

/-! ## Sample data for witnesses and counterexamples -/

/-- A vendor with an empty specialities list. -/
def sampleVendorNoSpecs : Vendor :=
  { id := "v1"
    name := "General Works"
    email := "gw@example.com"
    phone := "+91-1111111111"
    specialities := []
    location := "Ranchi"
    rating := 0
    totalJobs := 0
    baseQuote := 100
    description := ""
    verified := false
    createdAt := 0
    updatedAt := 0 }

/-- A road issue in the `reported` state with no assignee. -/
def sampleIssueRoad : Issue :=
  { id := "i1"
    title := "Pothole"
    description := "Deep pothole near the market"
    category := "Road/Sidewalk"
    status := .reported
    location := { address := "Main Road, Ranchi", lat := 23.3441, lng := 85.3096 }
    imageUrl := none
    reportedBy := "citizen@example.com"
    reportedAt := 0
    assignedTo := none }

/-- A selected image file. -/
def sampleFile : FileV :=
  { name := "photo.jpg", size := 1000 }

/-- A form state with all four required fields filled and an image selected. -/
def fsValidImage : FormState :=
  { title := "Pothole"
    description := "Deep pothole near the market"
    category := "Road/Sidewalk"
    location := "Main Road, Ranchi"
    latLng := some (23.3441, 85.3096)
    imageUrl := "blob:preview"
    selectedImage := some sampleFile
    audioDescription := "" }

/-- A form state with all four required fields filled and no image. -/
def fsValidNoImage : FormState :=
  { title := "Streetlight out"
    description := "Lamp dark at night"
    category := "Street Lighting"
    location := "Sector 2, Bokaro"
    latLng := none
    imageUrl := ""
    selectedImage := none
    audioDescription := "" }

/-- `fsValidNoImage` with the required title emptied. -/
def fsEmptyTitle : FormState :=
  { fsValidNoImage with title := "" }

/-- An environment where the image upload fails and the user declines the
confirmation dialog. -/
def envDecline : SubmitEnv :=
  { isFirebaseAvailable := true
    uploadAttempt := .fails 100
    userConfirms := false
    addIssueOutcome := .ok "doc1" }

/-- An environment where everything succeeds. -/
def envOk : SubmitEnv :=
  { isFirebaseAvailable := true
    uploadAttempt := .completes 100 "https://storage.example/img.jpg"
    userConfirms := true
    addIssueOutcome := .ok "doc1" }

/-- The issue data built from `fsValidNoImage` by a successful submission. -/
def sampleIssueData : IssueData :=
  buildIssueData "citizen@example.com" fsValidNoImage none

/-- The profile `registerUser` builds offline at `Date.now() = 0`. -/
def sampleOfflineProfile : UserProfile :=
  { uid := "offline_0"
    name := "Asha"
    email := "a@b.c"
    phone := "123"
    role := .citizen
    profileImageUrl := none
    createdAt := .clientDate 0
    updatedAt := .clientDate 0 }

/-- The `RegisterOutput` of the offline registration path at `now = 0`. -/
def sampleRegisterOutput : RegisterOutput :=
  { profile := sampleOfflineProfile
    storedLocal := some sampleOfflineProfile
    firestoreWrite := none }

/-- The `LocationResult` resolved on a permission-denied geolocation error. -/
def sampleDeniedResult : LocationResult :=
  { address := "Location permission denied"
    lat := 0
    lng := 0
    error := some "Location permission denied by user" }

/-! ## Helper lemmas -/

/-- `!issue.assignedTo` is true exactly for an absent or empty assignee. -/
theorem isFalsyAssignee_iff (o : Option String) :
    isFalsyAssignee o = true ↔ o = none ∨ o = some "" := by
  cases o with
  | none => simp [isFalsyAssignee]
  | some s => simp [isFalsyAssignee]

/-- The (lowered) empty string is a substring of every string. -/
theorem jsIncludes_empty (s : List Char) : jsIncludes s (jsToLower "") = true := by
  simp [jsIncludes, jsToLower]

/-! ## Claims -/

/-- C7: the error-message mapping is a pure substitution: for every error
value, `handleFirebaseError` returns exactly the offline-mode message when
the code is `unavailable` or `deadline-exceeded`, otherwise the error's own
message, or the generic message when the error has no message. -/
theorem c7_error_message_mapping (e : FirebaseErrorV) :
    ((e.code = "unavailable" ∨ e.code = "deadline-exceeded") →
      handleFirebaseError e =
        "Service temporarily unavailable. Operating in offline mode.") ∧
    (e.code ≠ "unavailable" → e.code ≠ "deadline-exceeded" → e.message ≠ "" →
      handleFirebaseError e = e.message) ∧
    (e.code ≠ "unavailable" → e.code ≠ "deadline-exceeded" → e.message = "" →
      handleFirebaseError e = "An error occurred. Please try again.") := by
  unfold handleFirebaseError
  refine ⟨fun h => ?_, fun h1 h2 h3 => ?_, fun h1 h2 h3 => ?_⟩
  · rcases h with h | h <;> simp [h]
  · simp [h1, h2, h3]
  · simp [h1, h2, h3]

/-- Witness for C7 at a concrete `unavailable` error. -/
theorem c7_error_message_mapping_witness :
    handleFirebaseError { code := "unavailable", message := "boom" } =
      "Service temporarily unavailable. Operating in offline mode." :=
  (c7_error_message_mapping { code := "unavailable", message := "boom" }).1
    (Or.inl rfl)

/-- C8: signing in with the literal credentials `admin`/`admin` always
succeeds without any backend call, returning the hard-coded administrator
profile (uid `admin`, role `admin`) and storing it in localStorage,
regardless of Firebase availability or backend behaviour. -/
theorem c8_admin_shortcut (isFb : Bool) (now : Nat) (backend : SignInBackend) :
    signInUser isFb now backend "admin" "admin" =
      Except.ok { profile := adminProfile now
                  storedLocal := some (adminProfile now)
                  backendCalled := false } ∧
    (adminProfile now).uid = "admin" ∧ (adminProfile now).role = Role.admin :=
  ⟨rfl, rfl, rfl⟩

/-- C9: the built-in admin account cannot be modified or removed through the
service layer: `updateUserProfile` with uid `admin` throws
`Cannot update admin profile` and `deleteUserAccount` with an `admin` user
throws `Cannot delete admin account`, in both cases before any backend or
localStorage write, leaving the stored state unchanged. -/
theorem c9_admin_account_protected (isFb : Bool) (now : Nat)
    (backendErr : Option FirebaseErrorV) (st : Store)
    (updates : ProfileUpdates) :
    updateUserProfile isFb now backendErr st "admin" updates =
      { thrown := some "Cannot update admin profile"
        store := st
        backendCalled := false } ∧
    deleteUserAccount isFb backendErr st { uid := "admin" } =
      { thrown := some "Cannot delete admin account"
        store := st
        backendCalled := false } :=
  ⟨rfl, rfl⟩

/-- C2: every `UserProfile` created by `registerUser` — returned, stored in
localStorage (offline path) or written to Firestore (backend path) — has
role `citizen`. -/
theorem c2_register_role_citizen (isFb : Bool) (now : Nat)
    (backend : AuthOutcome) (email password name phone : String)
    (out : RegisterOutput)
    (h : registerUser isFb now backend email password name phone =
      Except.ok out) :
    out.profile.role = Role.citizen ∧
    (∀ p, out.storedLocal = some p → p.role = Role.citizen) ∧
    (∀ p, out.firestoreWrite = some p → p.role = Role.citizen) := by
  cases isFb with
  | false =>
    injection h with h
    subst h
    exact ⟨rfl, fun p hp => (Option.some.inj hp) ▸ rfl,
      fun p hp => Option.noConfusion hp⟩
  | true =>
    cases backend with
    | err e => injection h
    | ok uid =>
      injection h with h
      subst h
      exact ⟨rfl, fun p hp => Option.noConfusion hp,
        fun p hp => (Option.some.inj hp) ▸ rfl⟩

/-- Witness for C2 on the offline registration path. -/
theorem c2_register_role_citizen_witness :
    sampleRegisterOutput.profile.role = Role.citizen :=
  (c2_register_role_citizen false 0 (.ok "u1") "a@b.c" "pw" "Asha" "123"
    sampleRegisterOutput rfl).1

/-- C10: `getUserLocation` is total at its interface: for every geolocation
outcome the promise resolves (never rejects); whenever the result carries an
error message its lat and lng are 0; and on success the result carries the
device coordinates with the address derived from them. -/
theorem c10_location_promise_total (o : GeoOutcome) :
    (∃ r, getUserLocation o = PromiseOutcome.resolved r) ∧
    (∀ r, getUserLocation o = PromiseOutcome.resolved r →
      r.error.isSome = true → r.lat = 0 ∧ r.lng = 0) ∧
    (∀ la ln, o = GeoOutcome.position la ln →
      getUserLocation o = PromiseOutcome.resolved
        { address := getLocationName la ln
          lat := la
          lng := ln
          error := none }) := by
  refine ⟨?_, ?_, ?_⟩
  · cases o <;> exact ⟨_, rfl⟩
  · intro r hr he
    cases o <;> (injection hr with hr; subst hr)
    · exact ⟨rfl, rfl⟩
    · exact ⟨rfl, rfl⟩
    · exact ⟨rfl, rfl⟩
    · exact ⟨rfl, rfl⟩
    · exact ⟨rfl, rfl⟩
    · simp at he
  · intro la ln h
    subst h
    rfl

/-- Witness for C10 at the permission-denied outcome. -/
theorem c10_location_promise_total_witness :
    sampleDeniedResult.lat = 0 ∧ sampleDeniedResult.lng = 0 :=
  (c10_location_promise_total GeoOutcome.permissionDenied).2.1
    sampleDeniedResult rfl rfl

/-- C5: admin dashboard filtering is a conjunction of independent
predicates: an issue appears in `filteredIssues` iff it is in the input list
and (title, description or location address contains the query
case-insensitively) and (status filter is `all` or equals the issue's
status) and (category filter is `all` or equals the issue's category) and
(assignee filter is `all`, or is `unassigned` and the issue has no
assignee, or equals the issue's assignee); with empty search and all
filters `all`, `filteredIssues` is the full list; and `filteredIssues` is
always a subsequence of the input. -/
theorem c5_admin_filtering (f : FilterSettings) (issues : List Issue) :
    (∀ issue : Issue, issue ∈ filteredIssues f issues ↔
      issue ∈ issues ∧
      ((containsCI issue.title f.searchQuery ∨
        containsCI issue.description f.searchQuery ∨
        containsCI issue.location.address f.searchQuery) ∧
       (f.filterStatus = "all" ∨ statusStr issue.status = f.filterStatus) ∧
       (f.filterCategory = "all" ∨ issue.category = f.filterCategory) ∧
       (f.filterAssignee = "all" ∨
        (f.filterAssignee = "unassigned" ∧ hasNoAssignee issue) ∨
        issue.assignedTo = some f.filterAssignee))) ∧
    (f.searchQuery = "" → f.filterStatus = "all" → f.filterCategory = "all" →
      f.filterAssignee = "all" → filteredIssues f issues = issues) ∧
    (filteredIssues f issues).Sublist issues := by
  refine ⟨?_, ?_, List.filter_sublist _⟩
  · intro issue
    simp only [filteredIssues, List.mem_filter, Bool.and_eq_true,
      Bool.or_eq_true, matchesSearch, matchesStatus, matchesCategory,
      matchesAssignee, containsCI, hasNoAssignee, beq_iff_eq,
      isFalsyAssignee_iff]
    tauto
  · intro hq hs hc ha
    apply List.filter_eq_self.mpr
    intro issue _
    simp [matchesSearch, matchesStatus, matchesCategory, matchesAssignee,
      hq, hs, hc, ha, jsIncludes_empty]

/-- Witness for C5: with empty search and all filters `all`, filtering is
the identity on a sample list. -/
theorem c5_admin_filtering_witness :
    filteredIssues
      { searchQuery := ""
        filterStatus := "all"
        filterCategory := "all"
        filterAssignee := "all" } [sampleIssueRoad] = [sampleIssueRoad] :=
  (c5_admin_filtering _ [sampleIssueRoad]).2.1 rfl rfl rfl rfl

/-- C1 as stated is false on the code: the matching filter also admits
vendors with an empty specialities list. A vendor with no specialities is
offered for a Road/Sidewalk issue although its specialities list does not
contain the issue's category, so the set offered is not exactly the vendors
whose specialities contain the category. -/
theorem c1_vendor_matching_counterexample :
    sampleVendorNoSpecs ∈
      displayVendors (some sampleIssueRoad) [sampleVendorNoSpecs] ∧
    sampleVendorNoSpecs.specialities.contains sampleIssueRoad.category
      = false := by
  decide

/-- C1 amended: for an issue under assignment, the vendors the filter keeps
are exactly those whose specialities list is empty or contains the issue's
category; the list actually offered falls back to all vendors when the
filter keeps none; and with no issue selected every vendor is kept. -/
theorem c1_vendor_matching_amended (i : Issue) (vendors : List Vendor) :
    (∀ v : Vendor, v ∈ relevantVendors (some i) vendors ↔
      v ∈ vendors ∧ (v.specialities = [] ∨ i.category ∈ v.specialities)) ∧
    displayVendors (some i) vendors =
      (if relevantVendors (some i) vendors = [] then vendors
       else relevantVendors (some i) vendors) ∧
    relevantVendors none vendors = vendors := by
  refine ⟨?_, ?_, ?_⟩
  · intro v
    simp [relevantVendors, List.mem_filter, vendorMatches]
  · cases h : relevantVendors (some i) vendors with
    | nil => simp [displayVendors, h]
    | cons x xs => simp [displayVendors, h]
  · simp [relevantVendors, vendorMatches]

/-- Witness for C1 amended: the no-specialities vendor is kept by the
filter for the sample road issue. -/
theorem c1_vendor_matching_amended_witness :
    sampleVendorNoSpecs ∈
      relevantVendors (some sampleIssueRoad) [sampleVendorNoSpecs] :=
  ((c1_vendor_matching_amended sampleIssueRoad [sampleVendorNoSpecs]).1
    sampleVendorNoSpecs).mpr ⟨List.mem_singleton.mpr rfl, Or.inl rfl⟩

/-- C6: every issue status is one of the four values reported,
acknowledged, in-progress, resolved; every issue submitted through the
citizen form carries status `reported`; the admin vendor assignment sets
status `in-progress`; and applying an admin update either keeps the
issue's status or installs the status from the update, so the four-value
domain is preserved. -/
theorem c6_status_lifecycle :
    (∀ s : IssueStatus,
      s = .reported ∨ s = .acknowledged ∨ s = .inProgress ∨ s = .resolved) ∧
    (∀ (env : SubmitEnv) (u : String) (fs : FormState) (d : IssueData),
      (handleSubmit env u fs).submitted = some d →
      d.status = IssueStatus.reported) ∧
    (∀ (vendors : List Vendor) (vendorId : String),
      (assignVendorUpdates vendors vendorId).status
        = some IssueStatus.inProgress) ∧
    (∀ (i : Issue) (u : IssueUpdates),
      (applyIssueUpdates i u).status = i.status ∨
      u.status = some (applyIssueUpdates i u).status) := by
  refine ⟨?_, ?_, ?_, ?_⟩
  · intro s
    cases s
    · exact Or.inl rfl
    · exact Or.inr (Or.inl rfl)
    · exact Or.inr (Or.inr (Or.inl rfl))
    · exact Or.inr (Or.inr (Or.inr rfl))
  · intro env u fs d h
    simp only [handleSubmit] at h
    repeat' split at h
    all_goals simp at h
    all_goals (subst h; rfl)
  · intro vendors vendorId
    rfl
  · intro i u
    cases hu : u.status with
    | none => exact Or.inl (by simp [applyIssueUpdates, hu])
    | some s => exact Or.inr (by simp [applyIssueUpdates, hu])

/-- Witness for C6: the sample submission produces a `reported` issue. -/
theorem c6_status_lifecycle_witness :
    sampleIssueData.status = IssueStatus.reported :=
  c6_status_lifecycle.2.1 envOk "citizen@example.com" fsValidNoImage
    sampleIssueData rfl

/-- C3 as stated is false on the code: with all four required fields
non-empty but a selected image whose upload fails and a user who declines
the confirmation dialog, the submit handler returns without invoking
`addIssue`. -/
theorem c3_required_fields_counterexample :
    fsValidImage.title ≠ "" ∧ fsValidImage.description ≠ "" ∧
    fsValidImage.category ≠ "" ∧ fsValidImage.location ≠ "" ∧
    (handleSubmit envDecline "citizen@example.com" fsValidImage).addIssueCalled
      = false := by
  decide

/-- C3 amended: for every form state in which title, description, category
or location is empty, the submit handler sets the error message
`Please fill in all required fields` and does not invoke `addIssue`; for
every form state with all four non-empty it proceeds to `addIssue`, except
when a selected image's upload fails (or times out) and the user declines
the confirmation dialog. -/
theorem c3_required_fields_amended (env : SubmitEnv) (u : String)
    (fs : FormState) :
    ((fs.title = "" ∨ fs.description = "" ∨ fs.category = "" ∨
        fs.location = "") →
      (handleSubmit env u fs).errorMsg =
        "Please fill in all required fields" ∧
      (handleSubmit env u fs).addIssueCalled = false) ∧
    (fs.title ≠ "" → fs.description ≠ "" → fs.category ≠ "" →
      fs.location ≠ "" →
      ¬(fs.selectedImage.isSome = true ∧ env.isFirebaseAvailable = true ∧
        (∃ m, raceUpload env.uploadAttempt = Except.error m) ∧
        env.userConfirms = false) →
      (handleSubmit env u fs).addIssueCalled = true) := by
  constructor
  · intro h
    have hcond : (fs.title == "" || fs.description == "" ||
        fs.category == "" || fs.location == "") = true := by
      rcases h with h | h | h | h <;> simp [h]
    simp [handleSubmit, hcond]
  · intro ht hd hc hl hno
    have hcond : (fs.title == "" || fs.description == "" ||
        fs.category == "" || fs.location == "") = false := by
      simp [ht, hd, hc, hl]
    cases himg : fs.selectedImage with
    | none =>
      simp only [handleSubmit, hcond, Bool.false_eq_true, if_false, himg]
      cases env.addIssueOutcome <;> rfl
    | some file =>
      cases hfb : env.isFirebaseAvailable with
      | false =>
        simp only [handleSubmit, hcond, Bool.false_eq_true, if_false, himg,
          hfb]
        cases env.addIssueOutcome <;> rfl
      | true =>
        cases hrace : raceUpload env.uploadAttempt with
        | ok url =>
          simp only [handleSubmit, hcond, Bool.false_eq_true, if_false, himg,
            hfb, hrace]
          cases env.addIssueOutcome <;> rfl
        | error m =>
          have hcf : env.userConfirms = true := by
            by_contra hcf
            exact hno ⟨by simp [himg], hfb, ⟨m, hrace⟩,
              Bool.not_eq_true _ ▸ hcf⟩
          simp only [handleSubmit, hcond, Bool.false_eq_true, if_false, himg,
            hfb, hrace, hcf]
          cases env.addIssueOutcome <;> rfl

/-- Witness for C3 amended: an empty title blocks submission with the
required-fields message. -/
theorem c3_required_fields_amended_witness :
    (handleSubmit envOk "citizen@example.com" fsEmptyTitle).errorMsg =
      "Please fill in all required fields" ∧
    (handleSubmit envOk "citizen@example.com" fsEmptyTitle).addIssueCalled
      = false :=
  (c3_required_fields_amended envOk "citizen@example.com" fsEmptyTitle).1
    (Or.inl rfl)

/-- C4: the image upload is raced against the single 15000 ms timeout; when
an image is selected, Firebase is available and the race fails (upload
failure or timeout), submission continues only after the user confirms, and
on decline `addIssue` is not called, nothing is submitted, the form stays
open and `loading` is cleared. -/
theorem c4_upload_race_confirmation (env : SubmitEnv) (u : String)
    (fs : FormState)
    (ht : fs.title ≠ "") (hd : fs.description ≠ "") (hc : fs.category ≠ "")
    (hl : fs.location ≠ "") (himg : fs.selectedImage.isSome = true)
    (hfb : env.isFirebaseAvailable = true)
    (hfail : ∃ m, raceUpload env.uploadAttempt = Except.error m) :
    imageUploadTimeoutMs = 15000 ∧
    (env.userConfirms = false →
      (handleSubmit env u fs).addIssueCalled = false ∧
      (handleSubmit env u fs).submitted = none ∧
      (handleSubmit env u fs).loading = false ∧
      (handleSubmit env u fs).closedForm = false) ∧
    (env.userConfirms = true →
      (handleSubmit env u fs).addIssueCalled = true) := by
  obtain ⟨m, hm⟩ := hfail
  obtain ⟨file, hfile⟩ := Option.isSome_iff_exists.mp himg
  have hcond : (fs.title == "" || fs.description == "" ||
      fs.category == "" || fs.location == "") = false := by
    simp [ht, hd, hc, hl]
  refine ⟨rfl, fun hcf => ?_, fun hcf => ?_⟩
  · simp [handleSubmit, hcond, hfile, hfb, hm, hcf]
  · simp only [handleSubmit, hcond, Bool.false_eq_true, if_false, hfile,
      hfb, hm, hcf]
    cases env.addIssueOutcome <;> rfl

/-- Witness for C4: the declining environment leaves everything unsubmitted
with loading cleared. -/
theorem c4_upload_race_confirmation_witness :
    (handleSubmit envDecline "citizen@example.com" fsValidImage).addIssueCalled
        = false ∧
    (handleSubmit envDecline "citizen@example.com" fsValidImage).submitted
        = none ∧
    (handleSubmit envDecline "citizen@example.com" fsValidImage).loading
        = false ∧
    (handleSubmit envDecline "citizen@example.com" fsValidImage).closedForm
        = false :=
  (c4_upload_race_confirmation envDecline "citizen@example.com" fsValidImage
    (by decide) (by decide) (by decide) (by decide) rfl rfl
    ⟨"Image upload failed", rfl⟩).2.1 rfl

end VikasitJharkhand
